import Mathlib

/-!
Verification of the rfp-scraper-enterprise harvesting-and-alerting pipeline.

The Python sources are shallowly embedded: pure computations become Lean
functions, stateful components (circuit breaker, alert throttle, scraping
session) become explicit state-passing functions, machine floats become
rationals, and wall-clock instants become explicit parameters.  Every
definition follows the corresponding Python function; definitions whose
name matches a Python symbol are direct translations of that symbol.
-/

namespace RFPScraper

/-! ## String helpers

Python's substring test `needle in hay` and related operations. -/

/-- Python `needle in hay` substring containment on strings. -/
def pyIn (needle hay : String) : Bool :=
  let n := needle.toList
  let h := hay.toList
  (List.range (h.length + 1)).any (fun i => n.isPrefixOf (h.drop i))

/-- Python `str.lower()` (ASCII; all inputs in scope are ASCII). -/
def pyLower (s : String) : String := String.mk (s.toList.map Char.toLower)

/-- Python `str.strip()`. -/
def pyStrip (s : String) : String :=
  String.mk (((s.toList.dropWhile Char.isWhitespace).reverse.dropWhile
    Char.isWhitespace).reverse)

/-- Python `str.replace(c, '')`: delete every occurrence of a character. -/
def pyRemoveChar (c : Char) (s : String) : String :=
  String.mk (s.toList.filter (fun x => x ≠ c))

/-- Numeric value of a decimal digit character. -/
def charVal (c : Char) : Nat := c.toNat - 48

/-- Value of a list of decimal digit characters, most significant first. -/
def digitsToNat (l : List Char) : Nat :=
  l.foldl (fun a c => a * 10 + charVal c) 0

/-! ## Calendar arithmetic

Python `datetime` objects are modelled by their proleptic-Gregorian day
number (rata die, day 1 = 0001-01-01) plus seconds-into-day.  `datetime`
only admits years 1..9999, so day numbers are naturals. -/

/-- Gregorian leap-year test. -/
def isLeapYear (y : Nat) : Bool :=
  y % 4 = 0 && (y % 100 != 0 || y % 400 = 0)

/-- Length of month `m` (1-based) in year `y`. -/
def daysInMonth (y m : Nat) : Nat :=
  if m = 2 then (if isLeapYear y then 29 else 28)
  else if m = 4 ∨ m = 6 ∨ m = 9 ∨ m = 11 then 30
  else 31

/-- Days in year `y` strictly before month `m`. -/
def daysBeforeMonth (y m : Nat) : Nat :=
  (List.range (m - 1)).foldl (fun a i => a + daysInMonth y (i + 1)) 0

/-- Rata-die day number of the date `y-m-d` (0001-01-01 is day 1). -/
def rataDie (y m d : Nat) : Nat :=
  365 * (y - 1) + (y - 1) / 4 - (y - 1) / 100 + (y - 1) / 400 + daysBeforeMonth y m + d

/-- A `datetime.now()` instant: rata-die day number plus seconds into the
day (Python normalizes time-of-day into `[0, 86400)`). -/
structure PyTime where
  day : Nat
  secs : Nat
  secs_lt : secs < 86400

/-- `(deadline_midnight - now).days` for a deadline on rata-die day `d`:
Python `timedelta.days` floors, so a nonzero time-of-day lowers the day
count by one. -/
def daysUntilMidnight (now : PyTime) (d : Nat) : Int :=
  (d : Int) - (now.day : Int) - (if now.secs = 0 then 0 else 1)

/-! ## `datetime.strptime`

The subset of CPython `strptime` needed by the repository: directives
`%Y %m %d %H %M %S %b %B` and literal separators.  CPython compiles the
format to a case-insensitive regex (whitespace in the format matches a
nonempty whitespace run) and then validates the fields through the
`datetime` constructor; both steps are reproduced here.  The numeric
directives mirror the exact regex alternations of `Lib/_strptime.py`. -/

inductive FTok where
  | lit (c : Char)
  | ws
  | y4
  | mon
  | day
  | hour
  | minute
  | second
  | monAbbrev
  | monFull
  deriving DecidableEq

/-- Fields recovered by `strptime` (defaults as in CPython). -/
structure TimeStruct where
  year : Nat := 1900
  month : Nat := 1
  day : Nat := 1
  hour : Nat := 0
  minute : Nat := 0
  second : Nat := 0
  deriving DecidableEq, Repr

/-- `%Y`: exactly four digits. -/
def matchY4 (s : List Char) : Option (Nat × List Char) :=
  match s with
  | a :: b :: c :: d :: rest =>
    if a.isDigit ∧ b.isDigit ∧ c.isDigit ∧ d.isDigit then
      some (digitsToNat [a, b, c, d], rest)
    else none
  | _ => none

/-- `%m`: regex `1[0-2]|0[1-9]|[1-9]`, alternatives in order. -/
def matchMon (s : List Char) : Option (Nat × List Char) :=
  match s with
  | a :: b :: rest =>
    if a = '1' ∧ (b = '0' ∨ b = '1' ∨ b = '2') then some (10 + charVal b, rest)
    else if a = '0' ∧ b.isDigit ∧ b ≠ '0' then some (charVal b, rest)
    else if a.isDigit ∧ a ≠ '0' then some (charVal a, b :: rest)
    else none
  | [a] => if a.isDigit ∧ a ≠ '0' then some (charVal a, []) else none
  | [] => none

/-- `%d`: regex `3[01]|[12]\d|0[1-9]|[1-9]`, alternatives in order. -/
def matchDay (s : List Char) : Option (Nat × List Char) :=
  match s with
  | a :: b :: rest =>
    if a = '3' ∧ (b = '0' ∨ b = '1') then some (30 + charVal b, rest)
    else if (a = '1' ∨ a = '2') ∧ b.isDigit then some (charVal a * 10 + charVal b, rest)
    else if a = '0' ∧ b.isDigit ∧ b ≠ '0' then some (charVal b, rest)
    else if a.isDigit ∧ a ≠ '0' then some (charVal a, b :: rest)
    else none
  | [a] => if a.isDigit ∧ a ≠ '0' then some (charVal a, []) else none
  | [] => none

/-- `%H`: regex `2[0-3]|[0-1]\d|\d`, alternatives in order. -/
def matchHour (s : List Char) : Option (Nat × List Char) :=
  match s with
  | a :: b :: rest =>
    if a = '2' ∧ (b = '0' ∨ b = '1' ∨ b = '2' ∨ b = '3') then some (20 + charVal b, rest)
    else if (a = '0' ∨ a = '1') ∧ b.isDigit then some (charVal a * 10 + charVal b, rest)
    else if a.isDigit then some (charVal a, b :: rest)
    else none
  | [a] => if a.isDigit then some (charVal a, []) else none
  | [] => none

/-- `%M` and `%S`: regex `[0-5]\d|\d`, alternatives in order. -/
def matchMinSec (s : List Char) : Option (Nat × List Char) :=
  match s with
  | a :: b :: rest =>
    if (a.isDigit ∧ charVal a ≤ 5) ∧ b.isDigit then some (charVal a * 10 + charVal b, rest)
    else if a.isDigit then some (charVal a, b :: rest)
    else none
  | [a] => if a.isDigit then some (charVal a, []) else none
  | [] => none

def monthAbbrevNames : List (String × Nat) :=
  [("jan", 1), ("feb", 2), ("mar", 3), ("apr", 4), ("may", 5), ("jun", 6),
   ("jul", 7), ("aug", 8), ("sep", 9), ("oct", 10), ("nov", 11), ("dec", 12)]

def monthFullNames : List (String × Nat) :=
  [("january", 1), ("february", 2), ("march", 3), ("april", 4), ("may", 5),
   ("june", 6), ("july", 7), ("august", 8), ("september", 9), ("october", 10),
   ("november", 11), ("december", 12)]

/-- `%b`/`%B`: case-insensitive prefix match against month names (no name
in either table is a proper prefix of another, so order is immaterial). -/
def matchMonthName (names : List (String × Nat)) (s : List Char) :
    Option (Nat × List Char) :=
  names.findSome? (fun p =>
    let n := p.1.toList
    if (s.take n.length).map Char.toLower = n then some (p.2, s.drop n.length)
    else none)

/-- Run a compiled format against the input characters.  A leftover suffix
after the last directive is "unconverted data" and fails the parse, as in
CPython. -/
def runFormat : List FTok → TimeStruct → List Char → Option TimeStruct
  | [], tm, s => if s = [] then some tm else none
  | FTok.lit c :: toks, tm, s =>
    match s with
    | x :: rest => if x.toLower = c.toLower then runFormat toks tm rest else none
    | [] => none
  | FTok.ws :: toks, tm, s =>
    match s with
    | x :: rest =>
      if x.isWhitespace then runFormat toks tm (rest.dropWhile Char.isWhitespace)
      else none
    | [] => none
  | FTok.y4 :: toks, tm, s =>
    match matchY4 s with
    | some (n, rest) => runFormat toks { tm with year := n } rest
    | none => none
  | FTok.mon :: toks, tm, s =>
    match matchMon s with
    | some (n, rest) => runFormat toks { tm with month := n } rest
    | none => none
  | FTok.day :: toks, tm, s =>
    match matchDay s with
    | some (n, rest) => runFormat toks { tm with day := n } rest
    | none => none
  | FTok.hour :: toks, tm, s =>
    match matchHour s with
    | some (n, rest) => runFormat toks { tm with hour := n } rest
    | none => none
  | FTok.minute :: toks, tm, s =>
    match matchMinSec s with
    | some (n, rest) => runFormat toks { tm with minute := n } rest
    | none => none
  | FTok.second :: toks, tm, s =>
    match matchMinSec s with
    | some (n, rest) => runFormat toks { tm with second := n } rest
    | none => none
  | FTok.monAbbrev :: toks, tm, s =>
    match matchMonthName monthAbbrevNames s with
    | some (n, rest) => runFormat toks { tm with month := n } rest
    | none => none
  | FTok.monFull :: toks, tm, s =>
    match matchMonthName monthFullNames s with
    | some (n, rest) => runFormat toks { tm with month := n } rest
    | none => none

/-- Validation performed by the `datetime` constructor after the regex
match: year in 1..9999 and the day within the month's length (month and
time ranges are already enforced by the directive regexes). -/
def validTimeStruct (tm : TimeStruct) : Bool :=
  1 ≤ tm.year && tm.year ≤ 9999 && 1 ≤ tm.month && tm.month ≤ 12 &&
  1 ≤ tm.day && tm.day ≤ daysInMonth tm.year tm.month &&
  tm.hour ≤ 23 && tm.minute ≤ 59 && tm.second ≤ 59

/-- `datetime.strptime(s, fmt)` returning `none` on `ValueError`. -/
def strptime (fmt : List FTok) (s : String) : Option TimeStruct :=
  match runFormat fmt {} s.toList with
  | some tm => if validTimeStruct tm then some tm else none
  | none => none

/-- Format `'%Y-%m-%d'`. -/
def fmtYmd : List FTok := [.y4, .lit '-', .mon, .lit '-', .day]

/-- Format `'%m/%d/%Y'`. -/
def fmtMdY : List FTok := [.mon, .lit '/', .day, .lit '/', .y4]

/-- Format `'%Y-%m-%dT%H:%M:%S'`. -/
def fmtYmdHMS : List FTok :=
  [.y4, .lit '-', .mon, .lit '-', .day, .lit 'T', .hour, .lit ':', .minute,
   .lit ':', .second]

/-- Format `'%b %d, %Y'`. -/
def fmtBdY : List FTok := [.monAbbrev, .ws, .day, .lit ',', .ws, .y4]

/-- Format `'%B %d, %Y'`. -/
def fmtBFulldY : List FTok := [.monFull, .ws, .day, .lit ',', .ws, .y4]

/-- Days from `now` to the deadline parsed with `'%Y-%m-%d'`, when it
parses: the `(deadline_date - datetime.now()).days` computation shared by
the scorer and the urgency derivations. -/
def parsedDeadlineDays (now : PyTime) (s : String) : Option Int :=
  (strptime fmtYmd s).map (fun tm => daysUntilMidnight now (rataDie tm.year tm.month tm.day))

/-! ## MD5 (`hashlib.md5(...).hexdigest()`)

A byte-level MD5 over `Nat` arithmetic modulo `2^32` / `2^64`, used by
`RFPOpportunity.generate_hash`. -/

/-- 32-bit left rotation (operand assumed `< 2^32`). -/
def rotl32 (x n : Nat) : Nat :=
  ((x <<< n) % 4294967296) ||| (x >>> (32 - n))

/-- MD5 per-round shift amounts. -/
def md5S : List Nat :=
  [7, 12, 17, 22, 7, 12, 17, 22, 7, 12, 17, 22, 7, 12, 17, 22,
   5, 9, 14, 20, 5, 9, 14, 20, 5, 9, 14, 20, 5, 9, 14, 20,
   4, 11, 16, 23, 4, 11, 16, 23, 4, 11, 16, 23, 4, 11, 16, 23,
   6, 10, 15, 21, 6, 10, 15, 21, 6, 10, 15, 21, 6, 10, 15, 21]

/-- MD5 sine-derived constants. -/
def md5K : List Nat :=
  [0xd76aa478, 0xe8c7b756, 0x242070db, 0xc1bdceee,
   0xf57c0faf, 0x4787c62a, 0xa8304613, 0xfd469501,
   0x698098d8, 0x8b44f7af, 0xffff5bb1, 0x895cd7be,
   0x6b901122, 0xfd987193, 0xa679438e, 0x49b40821,
   0xf61e2562, 0xc040b340, 0x265e5a51, 0xe9b6c7aa,
   0xd62f105d, 0x02441453, 0xd8a1e681, 0xe7d3fbc8,
   0x21e1cde6, 0xc33707d6, 0xf4d50d87, 0x455a14ed,
   0xa9e3e905, 0xfcefa3f8, 0x676f02d9, 0x8d2a4c8a,
   0xfffa3942, 0x8771f681, 0x6d9d6122, 0xfde5380c,
   0xa4beea44, 0x4bdecfa9, 0xf6bb4b60, 0xbebfbc70,
   0x289b7ec6, 0xeaa127fa, 0xd4ef3085, 0x04881d05,
   0xd9d4d039, 0xe6db99e5, 0x1fa27cf8, 0xc4ac5665,
   0xf4292244, 0x432aff97, 0xab9423a7, 0xfc93a039,
   0x655b59c3, 0x8f0ccc92, 0xffeff47d, 0x85845dd1,
   0x6fa87e4f, 0xfe2ce6e0, 0xa3014314, 0x4e0811a1,
   0xf7537e82, 0xbd3af235, 0x2ad7d2bb, 0xeb86d391]

/-- Little-endian byte decomposition of `n` into `k` bytes. -/
def natLEBytes (n k : Nat) : List Nat :=
  (List.range k).map (fun i => (n >>> (8 * i)) % 256)

/-- Little-endian word built from bytes `4*j .. 4*j+3` of a chunk. -/
def md5Word (chunk : List Nat) (j : Nat) : Nat :=
  chunk.getD (4 * j) 0 + 256 * chunk.getD (4 * j + 1) 0 +
  65536 * chunk.getD (4 * j + 2) 0 + 16777216 * chunk.getD (4 * j + 3) 0

/-- One MD5 compression: fold the 64 rounds over one 64-byte chunk. -/
def md5Compress (st : Nat × Nat × Nat × Nat) (chunk : List Nat) :
    Nat × Nat × Nat × Nat :=
  let mask : Nat := 4294967295
  let r := (List.range 64).foldl
    (fun st i =>
      let a := st.1
      let b := st.2.1
      let c := st.2.2.1
      let d := st.2.2.2
      let fg : Nat × Nat :=
        if i < 16 then ((b &&& c) ||| ((b ^^^ mask) &&& d), i)
        else if i < 32 then ((d &&& b) ||| ((d ^^^ mask) &&& c), (5 * i + 1) % 16)
        else if i < 48 then (b ^^^ c ^^^ d, (3 * i + 5) % 16)
        else (c ^^^ (b ||| (d ^^^ mask)), (7 * i) % 16)
      let f := (fg.1 + a + md5K.getD i 0 + md5Word chunk fg.2) % 4294967296
      (d, (b + rotl32 f (md5S.getD i 0)) % 4294967296, b, c))
    st
  ((st.1 + r.1) % 4294967296, (st.2.1 + r.2.1) % 4294967296,
   (st.2.2.1 + r.2.2.1) % 4294967296, (st.2.2.2 + r.2.2.2) % 4294967296)

/-- MD5 padding: `0x80`, zeros to 56 mod 64, then the 64-bit little-endian
bit length. -/
def md5Pad (msg : List Nat) : List Nat :=
  let len := msg.length
  let zeros := (56 + 64 - (len + 1) % 64) % 64
  msg ++ [128] ++ List.replicate zeros 0 ++ natLEBytes ((8 * len) % 18446744073709551616) 8

/-- Split a byte list into 64-byte chunks. -/
def chunks64 : List Nat → List (List Nat)
  | [] => []
  | x :: xs => (x :: xs.take 63) :: chunks64 (xs.drop 63)
  termination_by l => l.length
  decreasing_by simp [List.length_drop]; omega

/-- Lowercase hex digit. -/
def hexDigit (n : Nat) : Char :=
  if n < 10 then Char.ofNat (48 + n) else Char.ofNat (87 + n)

/-- Two lowercase hex digits of a byte. -/
def byteHex (b : Nat) : String :=
  String.mk [hexDigit (b / 16), hexDigit (b % 16)]

/-- `hashlib.md5(bytes).hexdigest()`. -/
def md5Hex (msg : List Nat) : String :=
  let st := (chunks64 (md5Pad msg)).foldl md5Compress
    (0x67452301, 0xefcdab89, 0x98badcfe, 0x10325476)
  String.join ((natLEBytes st.1 4 ++ natLEBytes st.2.1 4 ++
    natLEBytes st.2.2.1 4 ++ natLEBytes st.2.2.2 4).map byteHex)

/-! ## Data model (`src/core/models.py`) -/

/-- `RFPOpportunity` (floats as rationals, `discovered_at` as a rational
timestamp). -/
structure RFPOpportunity where
  title : String
  agency : String
  deadline : String
  value : String
  urgency : String
  contact : String
  url : String := ""
  description : String := ""
  keywords : List String := []
  discovered_at : ℚ := 0
  score : ℚ := 0

/-- `RFPOpportunity.generate_hash`: the MD5 hex digest of the UTF-8 bytes
of `title + agency + deadline + url`. -/
def RFPOpportunity.generate_hash (o : RFPOpportunity) : String :=
  md5Hex ((o.title ++ o.agency ++ o.deadline ++ o.url).toUTF8.toList.map UInt8.toNat)

/-- `ScrapeSession` (times as rationals). -/
structure ScrapeSession where
  start_time : ℚ
  end_time : Option ℚ := none
  status : String := "started"
  opportunities_found : Nat := 0
  errors : String := ""
  duration_seconds : ℚ := 0
  source : String := "automated"
  deriving DecidableEq

/-- `Alert` from `src/core/models.py`. -/
structure Alert where
  severity : String
  message : String
  metric : String
  value : ℚ
  timestamp : ℚ

/-! ## Rule-based scoring
(`RFPScraperEnhanced._score_opportunities`, `src/core/main_application.py`) -/

/-- The scoring weights read from `config['scoring']`, with the defaults
used by `_score_opportunities` when a key is absent. -/
structure ScoringConfig where
  urgency_weight : ℚ := 3
  value_weight : ℚ := 2
  keyword_weight : ℚ := 3 / 2
  deadline_weight : ℚ := 2

/-- The fixed relevance vocabulary of `_score_opportunities`. -/
def relevant_keywords : List String :=
  ["payment", "fintech", "technology", "digital", "software"]

/-- Urgency contribution of `_score_opportunities`. -/
def urgencyComponent (cfg : ScoringConfig) (o : RFPOpportunity) : ℚ :=
  if pyLower o.urgency = "high" then cfg.urgency_weight
  else if pyLower o.urgency = "medium" then cfg.urgency_weight * (67 / 100)
  else cfg.urgency_weight * (33 / 100)

/-- Value contribution of `_score_opportunities`. -/
def valueComponent (cfg : ScoringConfig) (o : RFPOpportunity) : ℚ :=
  let value_str := pyLower o.value
  if pyIn "million" value_str then cfg.value_weight
  else if pyIn "thousand" value_str || pyIn "k" value_str then cfg.value_weight * (1 / 2)
  else 0

/-- One iteration of the keyword loop of `_score_opportunities`. -/
def keywordStep (cfg : ScoringConfig) (title_lower description_lower : String)
    (s : ℚ) (keyword : String) : ℚ :=
  let s := if pyIn keyword title_lower then s + cfg.keyword_weight else s
  if pyIn keyword description_lower then s + cfg.keyword_weight * (1 / 2) else s

/-- Deadline contribution of `_score_opportunities` (zero when
`datetime.strptime(deadline, '%Y-%m-%d')` raises). -/
def deadlineComponent (cfg : ScoringConfig) (now : PyTime) (o : RFPOpportunity) : ℚ :=
  match parsedDeadlineDays now o.deadline with
  | some days =>
    if days ≤ 7 then cfg.deadline_weight
    else if days ≤ 30 then cfg.deadline_weight * (1 / 2)
    else 0
  | none => 0

/-- The score `_score_opportunities` assigns to one opportunity. -/
def scoreOpportunityRules (cfg : ScoringConfig) (now : PyTime) (o : RFPOpportunity) : ℚ :=
  let score : ℚ := 0
  let score := score + urgencyComponent cfg o
  let score := score + valueComponent cfg o
  let score := relevant_keywords.foldl (keywordStep cfg (pyLower o.title) (pyLower o.description)) score
  let score := score + deadlineComponent cfg now o
  min score 10

/-- `_score_opportunities`: set every opportunity's score in place. -/
def score_opportunities (cfg : ScoringConfig) (now : PyTime)
    (opportunities : List RFPOpportunity) : List RFPOpportunity :=
  opportunities.map (fun o => { o with score := scoreOpportunityRules cfg now o })

/-! ## Fallback scorer
(`MLOpportunityScorer`, `src/ml/opportunity_scorer.py`) -/

/-- First match of the regex `\d+(?:\.\d+)?` in a character list. -/
def findFirstNumber : List Char → Option ℚ
  | [] => none
  | c :: rest =>
    if c.isDigit then
      let intDigits := (c :: rest).takeWhile Char.isDigit
      let rest2 := (c :: rest).dropWhile Char.isDigit
      some (match rest2 with
        | '.' :: d :: rest3 =>
          if d.isDigit then
            let fracDigits := (d :: rest3).takeWhile Char.isDigit
            (digitsToNat intDigits : ℚ) + (digitsToNat fracDigits : ℚ) / ((10 : ℚ) ^ fracDigits.length)
          else (digitsToNat intDigits : ℚ)
        | _ => (digitsToNat intDigits : ℚ))
    else findFirstNumber rest

/-- `MLOpportunityScorer._extract_numeric_value`. -/
def extract_numeric_value (value_str : String) : ℚ :=
  if value_str = "" then 0
  else
    let s := pyRemoveChar '$' (pyRemoveChar ',' (pyLower value_str))
    match findFirstNumber s.toList with
    | none => 0
    | some base =>
      if pyIn "million" s || pyIn "m" s then base * 1000000
      else if pyIn "thousand" s || pyIn "k" s then base * 1000
      else base

/-- The relevance vocabulary of `_fallback_scoring`. -/
def fallback_relevant_keywords : List String :=
  ["technology", "software", "digital", "payment", "fintech"]

/-- One iteration of the keyword loop of `_fallback_scoring`. -/
def fallbackKeywordStep (text : String) (s : ℚ) (keyword : String) : ℚ :=
  if pyIn keyword text then s + 1 / 2 else s

/-- `MLOpportunityScorer._fallback_scoring`. -/
def fallback_scoring (o : RFPOpportunity) : ℚ :=
  let score : ℚ :=
    if pyLower o.urgency = "high" then 3
    else if pyLower o.urgency = "medium" then 2
    else if pyLower o.urgency = "low" then 1
    else 1
  let value_numeric := extract_numeric_value o.value
  let score := score +
    (if value_numeric > 1000000 then 3
     else if value_numeric > 100000 then 2
     else if value_numeric > 10000 then 1
     else 0)
  let text := pyLower (o.title ++ " " ++ o.description)
  let score := fallback_relevant_keywords.foldl (fallbackKeywordStep text) score
  min score 10

/-- `MLOpportunityScorer.score_opportunity` when the ML libraries are
unavailable or no model is trained: it delegates to `_fallback_scoring`. -/
def score_opportunity (ml_available model_trained : Bool) (o : RFPOpportunity) :
    Option ℚ :=
  if ¬ml_available ∨ ¬model_trained then some (fallback_scoring o) else none

/-! ## Urgency derivation
(`BaseRFPPlugin.determine_urgency`, `src/plugins/base_plugin.py`;
`RFPPlugin._calculate_federal_urgency`, `plugins/federal_opportunities.py`) -/

/-- `BaseRFPPlugin.determine_urgency`. -/
def determine_urgency (now : PyTime) (deadline : String) : String :=
  if deadline = "" then "medium"
  else
    match parsedDeadlineDays now deadline with
    | some days =>
      if days ≤ 7 then "high"
      else if days ≤ 30 then "medium"
      else "low"
    | none => "medium"

/-- `RFPPlugin._calculate_federal_urgency` ("Federal procurement often has
longer timelines": the high cut-off is 10 days, not 7). -/
def calculate_federal_urgency (now : PyTime) (deadline_str : String) : String :=
  if deadline_str = "" then "medium"
  else
    match parsedDeadlineDays now deadline_str with
    | some days =>
      if days ≤ 10 then "high"
      else if days ≤ 30 then "medium"
      else "low"
    | none => "medium"

/-! ## Federal date normalization
(`RFPPlugin._parse_federal_date`, `plugins/federal_opportunities.py`) -/

/-- The ordered `federal_formats` list of `_parse_federal_date`. -/
def federal_formats : List (List FTok) :=
  [fmtYmd, fmtMdY, fmtYmdHMS, fmtBdY, fmtBFulldY]

/-- Zero-padded decimal rendering. -/
def padNum (n width : Nat) : String :=
  let s := toString n
  String.mk (List.replicate (width - s.length) '0') ++ s

/-- `parsed_date.strftime('%Y-%m-%d')`. -/
def strftimeYmd (tm : TimeStruct) : String :=
  padNum tm.year 4 ++ "-" ++ padNum tm.month 2 ++ "-" ++ padNum tm.day 2

/-- The `for fmt in federal_formats: try ... except ValueError: continue`
loop: first format that parses wins. -/
def tryFormats (stripped : String) : List (List FTok) → Option TimeStruct
  | [] => none
  | f :: fs =>
    match strptime f stripped with
    | some tm => some tm
    | none => tryFormats stripped fs

/-- `RFPPlugin._parse_federal_date`: empty input gives "TBD"; otherwise the
first format that parses the stripped input is rendered as `%Y-%m-%d`, and
when no format matches the loop falls through to `return date_str`. -/
def parse_federal_date (date_str : String) : String :=
  if date_str = "" then "TBD"
  else
    match tryFormats (pyStrip date_str) federal_formats with
    | some tm => strftimeYmd tm
    | none => date_str

/-! ## Circuit breaker (`src/core/circuit_breaker.py`)

State is passed explicitly; `time.time()` instants are rationals.  One
call through the wrapper takes the instant of the call and whether the
wrapped operation would raise. -/

/-- `CircuitBreaker` mutable fields (state strings as in the source). -/
structure CircuitBreaker where
  failure_threshold : Nat := 5
  recovery_timeout : ℚ := 60
  failure_count : Nat := 0
  last_failure_time : Option ℚ := none
  state : String := "CLOSED"

/-- Whether the wrapped operation would raise when invoked. -/
inductive CallOutcome where
  | success
  | failure
  deriving DecidableEq

/-- What the wrapper did: rejected without invoking the operation, invoked
it and returned its result, invoked it and re-raised its exception, or hit
the `TypeError` of `time.time() - None` (OPEN with no recorded failure,
unreachable from the initial state) before touching any state. -/
inductive CallResult where
  | rejected
  | returned
  | raised
  | crashed
  deriving DecidableEq

/-- `CircuitBreaker.record_failure`. -/
def record_failure (cb : CircuitBreaker) (now : ℚ) : CircuitBreaker :=
  let cb := { cb with failure_count := cb.failure_count + 1, last_failure_time := some now }
  if cb.failure_count ≥ cb.failure_threshold then { cb with state := "OPEN" } else cb

/-- `CircuitBreaker.reset`. -/
def resetBreaker (cb : CircuitBreaker) : CircuitBreaker :=
  { cb with failure_count := 0, state := "CLOSED" }

/-- The `try` body of the wrapper: invoke the operation, reset on success,
record the failure and re-raise otherwise. -/
def attemptCall (cb : CircuitBreaker) (now : ℚ) (outcome : CallOutcome) :
    CircuitBreaker × CallResult :=
  match outcome with
  | .success => (resetBreaker cb, .returned)
  | .failure => (record_failure cb now, .raised)

/-- One call through the `CircuitBreaker.__call__` wrapper. -/
def breakerCall (cb : CircuitBreaker) (now : ℚ) (outcome : CallOutcome) :
    CircuitBreaker × CallResult :=
  if cb.state = "OPEN" then
    match cb.last_failure_time with
    | some t =>
      if now - t > cb.recovery_timeout then
        attemptCall { cb with state := "HALF_OPEN" } now outcome
      else (cb, .rejected)
    | none => (cb, .crashed)
  else attemptCall cb now outcome

/-- Fold a sequence of timed failing calls through the breaker. -/
def breakerFailures (cb : CircuitBreaker) (times : List ℚ) : CircuitBreaker :=
  times.foldl (fun c t => (breakerCall c t .failure).1) cb

/-! ## Plugin orchestration (`src/plugins/plugin_manager.py`)

A plugin run either returns a record list, raises, or exceeds the timeout;
`asyncio.gather(..., return_exceptions=True)` turns each task into a value
or a captured exception. -/

/-- Behaviour of one plugin's `scrape` task under its timeout. -/
inductive PluginResult where
  | ok (records : List RFPOpportunity)
  | raised (msg : String)
  | timedOut

/-- `PluginManager._scrape_with_timeout`: a `TimeoutError` is caught and
yields `[]`; any other exception propagates out of the task and is
captured by `gather`. -/
def scrape_with_timeout (r : PluginResult) : Except String (List RFPOpportunity) :=
  match r with
  | .ok records => .ok records
  | .raised msg => .error msg
  | .timedOut => .ok []

/-- `PluginManager.scrape_all_sources`: tasks for every enabled plugin
present in the registry, gathered with captured exceptions, then merged by
extending with every list-valued result and only logging exceptions. -/
def scrape_all_sources (registered enabled : List String)
    (run : String → PluginResult) : List RFPOpportunity :=
  let tasks := enabled.filter (fun name => registered.contains name)
  let results := tasks.map (fun name => scrape_with_timeout (run name))
  results.foldl
    (fun opportunities r =>
      match r with
      | .ok records => opportunities ++ records
      | .error _ => opportunities)
    []

/-! ## Alert throttle & dispatch (`src/monitoring/alerting_system.py`)

`alert_history` is the dict from alert key to last-sent instant; instants
are rationals measured in hours so that `timedelta(hours=h)` is just `h`. -/

/-- `self.alert_history`, an association list with dict semantics. -/
def AlertHistory := List (String × ℚ)

/-- Dict lookup. -/
def histGet (h : AlertHistory) (k : String) : Option ℚ :=
  (List.find? (fun p => p.1 = k) h).map (fun p => p.2)

/-- Dict assignment `h[k] = v`. -/
def histSet (h : AlertHistory) (k : String) (v : ℚ) : AlertHistory :=
  (k, v) :: List.filter (fun p => ¬p.1 = k) h

/-- The throttle window in hours: `{'critical': 1, 'warning': 4, 'info': 12}`
with default 4. -/
def throttleHoursFor (severity : String) : ℚ :=
  if severity = "critical" then 1
  else if severity = "warning" then 4
  else if severity = "info" then 12
  else 4

/-- `f"{alert.metric}_{alert.severity}"`. -/
def alertKey (a : Alert) : String := a.metric ++ "_" ++ a.severity

/-- The configured channels and whether each send would succeed now. -/
structure ChannelState where
  email_configured : Bool
  slack_configured : Bool
  email_ok : Bool
  slack_ok : Bool

/-- `AlertingSystem._send_alert_notification`: each channel send catches
its own exceptions (and an outer handler catches the rest), so the call
always completes; the result records which channels actually delivered. -/
def send_alert_notification (ch : ChannelState) : Bool × Bool :=
  (ch.email_configured && ch.email_ok, ch.slack_configured && ch.slack_ok)

/-- Outcome of one `_send_alert_with_throttling` call. -/
structure ThrottleResult where
  history : AlertHistory
  dispatched : Bool
  delivered : Bool × Bool

/-- `AlertingSystem._send_alert_with_throttling`. -/
def send_alert_with_throttling (hist : AlertHistory) (a : Alert) (now : ℚ)
    (ch : ChannelState) : ThrottleResult :=
  let key := alertKey a
  let throttle_time := throttleHoursFor a.severity
  match histGet hist key with
  | some last_sent =>
    if now - last_sent < throttle_time then ⟨hist, false, (false, false)⟩
    else ⟨histSet hist key now, true, send_alert_notification ch⟩
  | none => ⟨histSet hist key now, true, send_alert_notification ch⟩

/-! ## Scraping session lifecycle
(`RFPScraperEnhanced.run_scraping_session`, `src/core/main_application.py`)

The awaited collaborators are inputs: each is either a value or the text
of the exception it raises.  `_health_check` catches all of its own
exceptions and returns a boolean.  The `finally` block always finalizes
the session and hands it to `DatabaseManager.record_scrape_session`. -/

structure SessionEffects where
  metrics : Except String Unit
  healthOk : Bool
  scraped : List RFPOpportunity
  save : RFPOpportunity → Except String Bool
  csvNotify : Except String Unit

/-- The `for opp in opportunities: if save_opportunity(opp): saved_count += 1`
loop; an exception aborts the loop. -/
def saveAll (save : RFPOpportunity → Except String Bool) :
    List RFPOpportunity → Except String Nat
  | [] => .ok 0
  | o :: os =>
    match save o with
    | .error e => .error e
    | .ok b =>
      match saveAll save os with
      | .error e => .error e
      | .ok n => .ok (if b then n + 1 else n)

structure SessionOutcome where
  session : ScrapeSession
  retval : Bool
  recorded : List ScrapeSession

/-- `run_scraping_session`, started at `t0` with the `finally` block
running at `t1`. -/
def run_scraping_session (t0 t1 : ℚ) (now : PyTime) (cfg : ScoringConfig)
    (eff : SessionEffects) : SessionOutcome :=
  let session : ScrapeSession := { start_time := t0 }
  let body : ScrapeSession × Bool :=
    match eff.metrics with
    | .error e => ({ session with status := "failed", errors := e }, false)
    | .ok _ =>
      if !eff.healthOk then ({ session with status := "health_check_failed" }, false)
      else
        let opportunities := eff.scraped
        if opportunities.isEmpty then ({ session with status := "no_data" }, true)
        else
          let scored := score_opportunities cfg now opportunities
          match saveAll eff.save scored with
          | .error e => ({ session with status := "failed", errors := e }, false)
          | .ok saved_count =>
            let counted := { session with opportunities_found := saved_count }
            match eff.csvNotify with
            | .error e => ({ counted with status := "failed", errors := e }, false)
            | .ok _ => ({ counted with status := "completed" }, true)
  let final := { body.1 with end_time := some t1, duration_seconds := t1 - t0 }
  { session := final, retval := body.2, recorded := [final] }

/-- The scoring weights used when `config['scoring']` is absent. -/
def default_scoring : ScoringConfig := {}

/-!
# Theorems
-/

/-! ### C1: identity hash depends only on the four identity fields -/

/-- C1: for every two opportunities A and B, if A and B have identical
title, agency, deadline and URL, then `generate_hash` returns the same
identity hash for both, regardless of any differences in description,
score, keywords, contact, value, urgency, or discovery timestamp. -/
theorem generate_hash_eq_of_identity_fields (A B : RFPOpportunity)
    (ht : A.title = B.title) (ha : A.agency = B.agency)
    (hd : A.deadline = B.deadline) (hu : A.url = B.url) :
    A.generate_hash = B.generate_hash := by
  unfold RFPOpportunity.generate_hash
  rw [ht, ha, hd, hu]

def oppIdA : RFPOpportunity :=
  { title := "Cloud Migration Services", agency := "GSA",
    deadline := "2026-11-01", value := "$2 million", urgency := "high",
    contact := "one@agency.gov", url := "https://sam.gov/opp/1",
    description := "first description", keywords := ["cloud"],
    discovered_at := 5, score := 7 }

def oppIdB : RFPOpportunity :=
  { title := "Cloud Migration Services", agency := "GSA",
    deadline := "2026-11-01", value := "$9 thousand", urgency := "low",
    contact := "two@agency.gov", url := "https://sam.gov/opp/1",
    description := "a completely different description",
    keywords := ["software", "digital"], discovered_at := 11, score := 2 }

/-- Witness for C1 at two concrete opportunities that differ in value,
urgency, contact, description, keywords, discovery time and score. -/
theorem generate_hash_eq_of_identity_fields_witness :
    oppIdA.generate_hash = oppIdB.generate_hash :=
  generate_hash_eq_of_identity_fields oppIdA oppIdB rfl rfl rfl rfl

/-! ### C2: both scorers stay inside [0, 10] -/

lemma urgencyComponent_nonneg (cfg : ScoringConfig) (o : RFPOpportunity)
    (h : 0 ≤ cfg.urgency_weight) : 0 ≤ urgencyComponent cfg o := by
  simp only [urgencyComponent]
  split_ifs
  · exact h
  · exact mul_nonneg h (by norm_num)
  · exact mul_nonneg h (by norm_num)

lemma valueComponent_nonneg (cfg : ScoringConfig) (o : RFPOpportunity)
    (h : 0 ≤ cfg.value_weight) : 0 ≤ valueComponent cfg o := by
  simp only [valueComponent]
  split_ifs
  · exact h
  · exact mul_nonneg h (by norm_num)
  · exact le_refl 0

lemma keywordStep_le (cfg : ScoringConfig) (t d : String)
    (h : 0 ≤ cfg.keyword_weight) (s : ℚ) (kw : String) :
    s ≤ keywordStep cfg t d s kw := by
  have h2 : 0 ≤ cfg.keyword_weight * (1 / 2) := mul_nonneg h (by norm_num)
  simp only [keywordStep]
  split_ifs <;> linarith

lemma le_foldl_keywordStep (cfg : ScoringConfig) (t d : String)
    (h : 0 ≤ cfg.keyword_weight) (l : List String) :
    ∀ s : ℚ, s ≤ l.foldl (keywordStep cfg t d) s := by
  induction l with
  | nil => intro s; exact le_refl s
  | cons kw l ih =>
    intro s
    exact le_trans (keywordStep_le cfg t d h s kw) (ih _)

lemma deadlineComponent_nonneg (cfg : ScoringConfig) (now : PyTime)
    (o : RFPOpportunity) (h : 0 ≤ cfg.deadline_weight) :
    0 ≤ deadlineComponent cfg now o := by
  simp only [deadlineComponent]
  cases parsedDeadlineDays now o.deadline with
  | none => exact le_refl 0
  | some days =>
    simp only
    split_ifs
    · exact h
    · exact mul_nonneg h (by norm_num)
    · exact le_refl 0

lemma fallbackKeywordStep_le (t : String) (s : ℚ) (kw : String) :
    s ≤ fallbackKeywordStep t s kw := by
  simp only [fallbackKeywordStep]
  split_ifs <;> linarith

lemma le_foldl_fallbackKeywordStep (t : String) (l : List String) :
    ∀ s : ℚ, s ≤ l.foldl (fallbackKeywordStep t) s := by
  induction l with
  | nil => intro s; exact le_refl s
  | cons kw l ih =>
    intro s
    exact le_trans (fallbackKeywordStep_le t s kw) (ih _)

/-- C2: for every opportunity and every combination of urgency, value
text, keyword content and deadline (parseable or not), the score of the
rule-based scorer with its default weights and the score of the fallback
scorer both lie in [0, 10]. -/
theorem scoring_stage_score_in_range (now : PyTime) (o : RFPOpportunity) :
    (0 ≤ scoreOpportunityRules default_scoring now o
      ∧ scoreOpportunityRules default_scoring now o ≤ 10)
    ∧ (0 ≤ fallback_scoring o ∧ fallback_scoring o ≤ 10) := by
  have hu : (0 : ℚ) ≤ default_scoring.urgency_weight := by norm_num [default_scoring]
  have hv : (0 : ℚ) ≤ default_scoring.value_weight := by norm_num [default_scoring]
  have hk : (0 : ℚ) ≤ default_scoring.keyword_weight := by norm_num [default_scoring]
  have hd : (0 : ℚ) ≤ default_scoring.deadline_weight := by norm_num [default_scoring]
  constructor
  · simp only [scoreOpportunityRules]
    constructor
    · refine le_min ?_ (by norm_num)
      have h1 : (0 : ℚ) ≤ 0 + urgencyComponent default_scoring o
          + valueComponent default_scoring o := by
        have := urgencyComponent_nonneg default_scoring o hu
        have := valueComponent_nonneg default_scoring o hv
        linarith
      have h2 := le_foldl_keywordStep default_scoring (pyLower o.title)
        (pyLower o.description) hk relevant_keywords
        (0 + urgencyComponent default_scoring o + valueComponent default_scoring o)
      have h3 := deadlineComponent_nonneg default_scoring now o hd
      linarith
    · exact min_le_right _ _
  · simp only [fallback_scoring]
    constructor
    · refine le_min ?_ (by norm_num)
      have h1 : (0 : ℚ) ≤
          (if pyLower o.urgency = "high" then (3 : ℚ)
           else if pyLower o.urgency = "medium" then 2
           else if pyLower o.urgency = "low" then 1
           else 1) := by split_ifs <;> norm_num
      have h2 : (0 : ℚ) ≤
          (if extract_numeric_value o.value > 1000000 then (3 : ℚ)
           else if extract_numeric_value o.value > 100000 then 2
           else if extract_numeric_value o.value > 10000 then 1
           else 0) := by split_ifs <;> norm_num
      have h3 := le_foldl_fallbackKeywordStep (pyLower (o.title ++ " " ++ o.description))
        fallback_relevant_keywords
        ((if pyLower o.urgency = "high" then (3 : ℚ)
          else if pyLower o.urgency = "medium" then 2
          else if pyLower o.urgency = "low" then 1
          else 1) +
         (if extract_numeric_value o.value > 1000000 then (3 : ℚ)
          else if extract_numeric_value o.value > 100000 then 2
          else if extract_numeric_value o.value > 10000 then 1
          else 0))
      linarith
    · exact min_le_right _ _

/-! ### C4: plugin failures are isolated -/

lemma foldl_mergeResults (results : List (Except String (List RFPOpportunity)))
    (acc : List RFPOpportunity) :
    results.foldl
      (fun opportunities r =>
        match r with
        | .ok records => opportunities ++ records
        | .error _ => opportunities) acc
    = acc ++ results.flatMap
        (fun r =>
          match r with
          | .ok records => records
          | .error _ => []) := by
  induction results generalizing acc with
  | nil => simp
  | cons r rs ih => cases r <;> simp [ih, List.append_assoc]

/-- C4: for every configuration and registered plugin set,
`scrape_all_sources` returns exactly the concatenation of the successful
enabled plugins' record lists — a plugin that raises or times out
contributes zero records and removes nothing from the others — and the
merge itself never raises (it is a total function into record lists). -/
theorem scrape_all_sources_isolates_plugin_failures
    (registered enabled : List String) (run : String → PluginResult) :
    scrape_all_sources registered enabled run
      = (enabled.filter (fun name => registered.contains name)).flatMap
          (fun name =>
            match run name with
            | .ok records => records
            | .raised _ => []
            | .timedOut => []) := by
  simp only [scrape_all_sources]
  rw [foldl_mergeResults, List.nil_append, List.flatMap_map]
  congr 1
  funext name
  cases hr : run name <;> simp [scrape_with_timeout]

/-! ### C7: date normalization fallthrough -/

/-- C7 counterexample: the non-empty input "hello" matches none of the
known formats, yet `parse_federal_date` returns it unchanged — not the
sentinel "TBD" the claim requires. -/
theorem parse_federal_date_no_match_cex :
    tryFormats "hello" federal_formats = none
    ∧ parse_federal_date "hello" = "hello"
    ∧ parse_federal_date "hello" ≠ "TBD" := by
  refine ⟨by decide, by decide, by decide⟩

/-- C7 amended: `parse_federal_date` returns "TBD" for an empty input;
otherwise it tries the ordered format list on the stripped input and
renders the first format that parses as YYYY-MM-DD, and when no format
parses a non-empty input it returns the input string unchanged (not
"TBD"). -/
theorem parse_federal_date_first_parse (date_str : String) :
    parse_federal_date date_str =
      if date_str = "" then "TBD"
      else
        match federal_formats.findSome? (fun fmt => strptime fmt (pyStrip date_str)) with
        | some tm => strftimeYmd tm
        | none => date_str := by
  have h : ∀ (fmts : List (List FTok)) (s : String),
      tryFormats s fmts = fmts.findSome? (fun fmt => strptime fmt s) := by
    intro fmts s
    induction fmts with
    | nil => rfl
    | cons f fs ih =>
      simp only [tryFormats, List.findSome?_cons]
      cases strptime f s <;> simp [ih]
  simp only [parse_federal_date, h]

/-! ### C3: circuit breaker lifecycle -/

lemma breakerFailures_fill (N : Nat) (T : ℚ) :
    ∀ (ts : List ℚ) (c : Nat) (lf : Option ℚ) (tlast : ℚ),
      ts.getLast? = some tlast → c + ts.length = N →
      breakerFailures
        { failure_threshold := N, recovery_timeout := T, failure_count := c,
          last_failure_time := lf, state := "CLOSED" } ts
      = { failure_threshold := N, recovery_timeout := T, failure_count := N,
          last_failure_time := some tlast, state := "OPEN" } := by
  intro ts
  induction ts with
  | nil =>
    intro c lf tlast hlast _
    simp at hlast
  | cons t ts ih =>
    intro c lf tlast hlast hc
    cases ts with
    | nil =>
      rw [List.getLast?_singleton] at hlast
      injection hlast with hl
      subst hl
      simp only [breakerFailures, List.foldl_cons, List.foldl_nil, breakerCall,
        attemptCall, record_failure]
      simp only [List.length_cons, List.length_nil] at hc
      simp [if_pos (by omega : c + 1 ≥ N), (by omega : c + 1 = N)]
    | cons t' ts' =>
      rw [List.getLast?_cons_cons] at hlast
      have hstep : (breakerCall
          { failure_threshold := N, recovery_timeout := T, failure_count := c,
            last_failure_time := lf, state := "CLOSED" } t .failure).1
          = { failure_threshold := N, recovery_timeout := T, failure_count := c + 1,
              last_failure_time := some t, state := "CLOSED" } := by
        simp only [List.length_cons] at hc
        simp only [breakerCall, attemptCall, record_failure]
        simp [if_neg (by omega : ¬c + 1 ≥ N)]
      have htail := ih (c + 1) (some t) tlast hlast
        (by simp only [List.length_cons] at hc ⊢; omega)
      simp only [breakerFailures, List.foldl_cons] at htail ⊢
      rw [hstep]
      exact htail

/-- C3: starting from the initial CLOSED state with failure count 0, a
breaker with threshold N and recovery timeout T is OPEN with count N after
N consecutive failing calls; while open, a call before T seconds have
elapsed since the last failure is rejected with the breaker-open error
without invoking the wrapped operation (the operation's outcome is
irrelevant and no state changes); a call after T seconds have elapsed goes
to HALF_OPEN and attempts the operation, and a successful attempt resets
the failure count to 0 and the state to CLOSED. -/
theorem circuit_breaker_lifecycle (N : Nat) (T : ℚ) (times : List ℚ)
    (tlast early late : ℚ)
    (hlast : times.getLast? = some tlast) (hlen : times.length = N)
    (hearly : early - tlast < T) (hlate : late - tlast > T) :
    (breakerFailures { failure_threshold := N, recovery_timeout := T } times).state = "OPEN"
    ∧ (breakerFailures { failure_threshold := N, recovery_timeout := T } times).failure_count = N
    ∧ (∀ outcome,
        breakerCall (breakerFailures { failure_threshold := N, recovery_timeout := T } times)
          early outcome
        = (breakerFailures { failure_threshold := N, recovery_timeout := T } times,
           CallResult.rejected))
    ∧ (breakerCall (breakerFailures { failure_threshold := N, recovery_timeout := T } times)
        late .success).2 = CallResult.returned
    ∧ (breakerCall (breakerFailures { failure_threshold := N, recovery_timeout := T } times)
        late .success).1.state = "CLOSED"
    ∧ (breakerCall (breakerFailures { failure_threshold := N, recovery_timeout := T } times)
        late .success).1.failure_count = 0 := by
  have hcb : breakerFailures { failure_threshold := N, recovery_timeout := T } times
      = { failure_threshold := N, recovery_timeout := T, failure_count := N,
          last_failure_time := some tlast, state := "OPEN" } :=
    breakerFailures_fill N T times 0 none tlast hlast (by omega)
  have hopen : ∀ outcome,
      breakerCall (breakerFailures { failure_threshold := N, recovery_timeout := T } times)
        early outcome
      = (breakerFailures { failure_threshold := N, recovery_timeout := T } times,
         CallResult.rejected) := by
    intro outcome
    rw [hcb]
    simp only [breakerCall]
    rw [if_pos trivial, if_neg (by linarith : ¬(early - tlast > T))]
  have hrecover :
      breakerCall (breakerFailures { failure_threshold := N, recovery_timeout := T } times)
        late .success
      = ({ failure_threshold := N, recovery_timeout := T, failure_count := 0,
           last_failure_time := some tlast, state := "CLOSED" },
         CallResult.returned) := by
    rw [hcb]
    simp only [breakerCall]
    rw [if_pos trivial, if_pos (by linarith : late - tlast > T)]
    rfl
  exact ⟨by rw [hcb], by rw [hcb], hopen, by rw [hrecover], by rw [hrecover],
    by rw [hrecover]⟩

/-- Witness for C3 at the defaults (threshold 5, timeout 60 s): five
failures at time 0, a rejected call at t = 30 and a recovering successful
call at t = 100. -/
theorem circuit_breaker_lifecycle_witness :
    breakerCall
        (breakerFailures { failure_threshold := 5, recovery_timeout := 60 }
          [(0 : ℚ), 0, 0, 0, 0]) 30 CallOutcome.failure
      = (breakerFailures { failure_threshold := 5, recovery_timeout := 60 }
          [(0 : ℚ), 0, 0, 0, 0], CallResult.rejected)
    ∧ (breakerCall
        (breakerFailures { failure_threshold := 5, recovery_timeout := 60 }
          [(0 : ℚ), 0, 0, 0, 0]) 100 .success).1.state = "CLOSED" :=
  have h := circuit_breaker_lifecycle 5 60 [0, 0, 0, 0, 0] 0 30 100 rfl rfl
    (by norm_num) (by norm_num)
  ⟨h.2.2.1 CallOutcome.failure, h.2.2.2.2.1⟩

/-! ### C5: alert throttle cool-down window -/

lemma histGet_histSet_self (h : AlertHistory) (k : String) (v : ℚ) :
    histGet (histSet h k v) k = some v := by
  simp [histGet, histSet, List.find?_cons]

/-- C5: for every (metric, severity) key, the cool-down windows are 1 h
(critical), 4 h (warning) and 12 h (info); a first presentation of an
alert not in the history dispatches it and records the send time, a
second presentation within the window is dropped without dispatch and
without touching the history, and a presentation after the window has
elapsed dispatches again. -/
theorem alert_throttle_window (hist : AlertHistory) (a : Alert) (t0 t1 : ℚ)
    (ch0 ch1 ch2 : ChannelState)
    (hfresh : histGet hist (alertKey a) = none) :
    throttleHoursFor "critical" = 1
    ∧ throttleHoursFor "warning" = 4
    ∧ throttleHoursFor "info" = 12
    ∧ (send_alert_with_throttling hist a t0 ch0).dispatched = true
    ∧ histGet (send_alert_with_throttling hist a t0 ch0).history (alertKey a) = some t0
    ∧ (t1 - t0 < throttleHoursFor a.severity →
        send_alert_with_throttling (send_alert_with_throttling hist a t0 ch0).history a t1 ch1
          = ⟨(send_alert_with_throttling hist a t0 ch0).history, false, (false, false)⟩)
    ∧ (throttleHoursFor a.severity ≤ t1 - t0 →
        (send_alert_with_throttling (send_alert_with_throttling hist a t0 ch0).history a t1 ch2).dispatched
          = true) := by
  have hfirst : send_alert_with_throttling hist a t0 ch0
      = ⟨histSet hist (alertKey a) t0, true, send_alert_notification ch0⟩ := by
    simp only [send_alert_with_throttling, hfresh]
  refine ⟨rfl, rfl, rfl, by rw [hfirst], ?_, ?_, ?_⟩
  · rw [hfirst]
    exact histGet_histSet_self hist (alertKey a) t0
  · intro hwin
    rw [hfirst]
    simp only [send_alert_with_throttling, histGet_histSet_self]
    rw [if_pos hwin]
  · intro hpast
    rw [hfirst]
    simp only [send_alert_with_throttling, histGet_histSet_self]
    rw [if_neg (not_lt.mpr hpast)]

def alertHS : Alert :=
  { severity := "critical", message := "System health critically low",
    metric := "health_score", value := 40, timestamp := 0 }

def chAll : ChannelState :=
  { email_configured := true, slack_configured := true,
    email_ok := true, slack_ok := true }

/-- Witness for C5: a fresh critical alert dispatched at t = 0 h, dropped
at t = 1/2 h (inside the 1 h window), dispatched again at t = 2 h. -/
theorem alert_throttle_window_witness :
    (send_alert_with_throttling [] alertHS 0 chAll).dispatched = true
    ∧ histGet (send_alert_with_throttling [] alertHS 0 chAll).history (alertKey alertHS)
        = some 0
    ∧ send_alert_with_throttling (send_alert_with_throttling [] alertHS 0 chAll).history
        alertHS (1 / 2) chAll
        = ⟨(send_alert_with_throttling [] alertHS 0 chAll).history, false, (false, false)⟩
    ∧ (send_alert_with_throttling (send_alert_with_throttling [] alertHS 0 chAll).history
        alertHS 2 chAll).dispatched = true :=
  have h1 := alert_throttle_window [] alertHS 0 (1 / 2) chAll chAll chAll rfl
  have h2 := alert_throttle_window [] alertHS 0 2 chAll chAll chAll rfl
  ⟨h1.2.2.2.1, h1.2.2.2.2.1,
   h1.2.2.2.2.2.1 (by norm_num [alertHS, throttleHoursFor]),
   h2.2.2.2.2.2.2 (by norm_num [alertHS, throttleHoursFor])⟩

/-! ### C10: a failed delivery still consumes the throttle window -/

/-- C10: an alert that passes the throttle check (unknown key, or known
key past its cool-down) has the current time recorded in the history even
when every configured channel fails to deliver (all channel errors are
caught inside the notification step), so a presentation of the same alert
within the window after an entirely failed delivery is still dropped. -/
theorem throttle_records_despite_failed_delivery (hist : AlertHistory)
    (a : Alert) (t0 t1 : ℚ) (ch : ChannelState)
    (hemail : ch.email_ok = false) (hslack : ch.slack_ok = false)
    (hpass : histGet hist (alertKey a) = none
      ∨ ∃ last, histGet hist (alertKey a) = some last
          ∧ throttleHoursFor a.severity ≤ t0 - last) :
    (send_alert_with_throttling hist a t0 ch).delivered = (false, false)
    ∧ (send_alert_with_throttling hist a t0 ch).dispatched = true
    ∧ histGet (send_alert_with_throttling hist a t0 ch).history (alertKey a) = some t0
    ∧ (t1 - t0 < throttleHoursFor a.severity →
        (send_alert_with_throttling (send_alert_with_throttling hist a t0 ch).history a t1 ch).dispatched
          = false) := by
  have hdel : send_alert_notification ch = (false, false) := by
    simp [send_alert_notification, hemail, hslack]
  have hfirst : send_alert_with_throttling hist a t0 ch
      = ⟨histSet hist (alertKey a) t0, true, (false, false)⟩ := by
    rcases hpass with hnone | ⟨last, hlast, hpast⟩
    · simp only [send_alert_with_throttling, hnone, hdel]
    · simp only [send_alert_with_throttling, hlast, hdel]
      rw [if_neg (not_lt.mpr (by linarith))]
  refine ⟨by rw [hfirst], by rw [hfirst], ?_, ?_⟩
  · rw [hfirst]
    exact histGet_histSet_self hist (alertKey a) t0
  · intro hwin
    rw [hfirst]
    simp only [send_alert_with_throttling, histGet_histSet_self]
    rw [if_pos hwin]

def chFail : ChannelState :=
  { email_configured := true, slack_configured := true,
    email_ok := false, slack_ok := false }

/-- Witness for C10: both channels configured but failing; the alert is
recorded at t = 0 and the repeat at t = 1/2 h is still suppressed. -/
theorem throttle_records_despite_failed_delivery_witness :
    (send_alert_with_throttling [] alertHS 0 chFail).delivered = (false, false)
    ∧ histGet (send_alert_with_throttling [] alertHS 0 chFail).history (alertKey alertHS)
        = some 0
    ∧ (send_alert_with_throttling (send_alert_with_throttling [] alertHS 0 chFail).history
        alertHS (1 / 2) chFail).dispatched = false :=
  have h := throttle_records_despite_failed_delivery [] alertHS 0 (1 / 2) chFail
    rfl rfl (Or.inl rfl)
  ⟨h.1, h.2.2.1, h.2.2.2 (by norm_num [alertHS, throttleHoursFor])⟩

/-! ### C8: urgency thresholds -/

/-- `datetime.now()` at midnight of 2026-10-12, used by concrete
instances. -/
def nowOct12 : PyTime := ⟨rataDie 2026 10 12, 0, by norm_num⟩

/-- C8 counterexample: "2026-10-21" is 9 days after `nowOct12`; the claim
demands urgency "medium" for 8..30 days from every plugin, but the federal
plugin's urgency calculation returns "high" (its high cut-off is 10 days,
not 7). -/
theorem federal_urgency_nine_days_cex :
    parsedDeadlineDays nowOct12 "2026-10-21" = some 9
    ∧ ¬((9 : Int) ≤ 7)
    ∧ calculate_federal_urgency nowOct12 "2026-10-21" = "high"
    ∧ calculate_federal_urgency nowOct12 "2026-10-21" ≠ "medium"
    ∧ determine_urgency nowOct12 "2026-10-21" = "medium" := by
  refine ⟨by decide, by decide, by decide, by decide, by decide⟩

/-- C8 amended: the base plugin contract maps days-until-deadline ≤ 7 to
"high", ≤ 30 to "medium", otherwise "low", with "medium" for an empty or
unparseable deadline; the federal plugin follows the same scheme except
that its "high" cut-off is ≤ 10 days. -/
theorem urgency_thresholds (now : PyTime) (deadline : String) :
    (deadline = "" →
      determine_urgency now deadline = "medium"
      ∧ calculate_federal_urgency now deadline = "medium")
    ∧ (parsedDeadlineDays now deadline = none →
      determine_urgency now deadline = "medium"
      ∧ calculate_federal_urgency now deadline = "medium")
    ∧ (∀ days, parsedDeadlineDays now deadline = some days →
      determine_urgency now deadline
        = (if days ≤ 7 then "high" else if days ≤ 30 then "medium" else "low")
      ∧ calculate_federal_urgency now deadline
        = (if days ≤ 10 then "high" else if days ≤ 30 then "medium" else "low")) := by
  refine ⟨?_, ?_, ?_⟩
  · intro h
    subst h
    exact ⟨rfl, rfl⟩
  · intro h
    by_cases he : deadline = ""
    · subst he; exact ⟨rfl, rfl⟩
    · constructor <;> simp [determine_urgency, calculate_federal_urgency, he, h]
  · intro days h
    by_cases he : deadline = ""
    · subst he
      rw [show parsedDeadlineDays now "" = none from rfl] at h
      cases h
    · constructor <;> simp [determine_urgency, calculate_federal_urgency, he, h]

/-- Witness for C8 at a deadline 9 days out: base plugin "medium", federal
plugin "high". -/
theorem urgency_thresholds_witness :
    determine_urgency nowOct12 "2026-10-21"
      = (if (9 : Int) ≤ 7 then "high" else if (9 : Int) ≤ 30 then "medium" else "low")
    ∧ calculate_federal_urgency nowOct12 "2026-10-21"
      = (if (9 : Int) ≤ 10 then "high" else if (9 : Int) ≤ 30 then "medium" else "low") :=
  (urgency_thresholds nowOct12 "2026-10-21").2.2 9 (by decide)

/-! ### C9: the 8.5 scenario -/

/-- C9: an opportunity with urgency "high", a value text containing
"million", a parseable deadline 3 days in the future, "software" in the
title, and no other relevance-keyword match in title or description is
scored exactly 8.5 by the rule-based scorer with default weights
(3.0 + 2.0 + 1.5 + 2.0, below the 10.0 cap). -/
theorem scenario_score_eight_point_five (now : PyTime) (o : RFPOpportunity)
    (hurg : pyLower o.urgency = "high")
    (hval : pyIn "million" (pyLower o.value) = true)
    (hdays : parsedDeadlineDays now o.deadline = some 3)
    (htitle : pyIn "software" (pyLower o.title) = true)
    (ht1 : pyIn "payment" (pyLower o.title) = false)
    (ht2 : pyIn "fintech" (pyLower o.title) = false)
    (ht3 : pyIn "technology" (pyLower o.title) = false)
    (ht4 : pyIn "digital" (pyLower o.title) = false)
    (hd1 : pyIn "payment" (pyLower o.description) = false)
    (hd2 : pyIn "fintech" (pyLower o.description) = false)
    (hd3 : pyIn "technology" (pyLower o.description) = false)
    (hd4 : pyIn "digital" (pyLower o.description) = false)
    (hd5 : pyIn "software" (pyLower o.description) = false) :
    scoreOpportunityRules default_scoring now o = 8.5 := by
  simp only [scoreOpportunityRules, urgencyComponent, valueComponent,
    deadlineComponent, relevant_keywords, keywordStep, default_scoring,
    List.foldl_cons, List.foldl_nil, hurg, hval, hdays, htitle, ht1, ht2,
    ht3, ht4, hd1, hd2, hd3, hd4, hd5]
  norm_num [min_def]

/-- The C9 scenario opportunity. -/
def oppScenario : RFPOpportunity :=
  { title := "Software Procurement", agency := "GSA",
    deadline := "2026-10-15", value := "$2.5 million", urgency := "high",
    contact := "poc@gsa.gov", url := "https://sam.gov/opp/42",
    description := "", keywords := [] }

/-- Witness for C9 at the concrete scenario opportunity, three days before
its deadline. -/
theorem scenario_score_eight_point_five_witness :
    scoreOpportunityRules default_scoring nowOct12 oppScenario = 8.5 :=
  scenario_score_eight_point_five nowOct12 oppScenario (by decide) (by decide)
    (by decide) (by decide) (by decide) (by decide) (by decide) (by decide)
    (by decide) (by decide) (by decide) (by decide) (by decide)

/-! ### C6: session finalization -/

/-- A fatal error outside the plugin layer during `run_scraping_session`:
the metrics collection raises, the batch save raises, or the CSV/
notification step raises (plugin errors never surface here — the plugin
manager absorbs them). -/
def sessionFatalError (cfg : ScoringConfig) (now : PyTime)
    (eff : SessionEffects) (e : String) : Prop :=
  eff.metrics = .error e
  ∨ (eff.metrics = .ok () ∧ eff.healthOk = true ∧ eff.scraped.isEmpty = false ∧
      (saveAll eff.save (score_opportunities cfg now eff.scraped) = .error e
       ∨ ∃ n, saveAll eff.save (score_opportunities cfg now eff.scraped) = .ok n
            ∧ eff.csvNotify = .error e))

/-- C6: every run of `run_scraping_session` finalizes its session exactly
once — the recorded session is the finalized one, with `end_time` and
`duration` set and a final status — on every path; a healthy run whose
merged plugin results are empty is finalized with status "no_data" and
returns success; a fatal error outside the plugin layer finalizes the
session with status "failed", retains the error text, and returns a
failure signal. -/
theorem run_scraping_session_finalizes_once (t0 t1 : ℚ) (now : PyTime)
    (cfg : ScoringConfig) (eff : SessionEffects) :
    (run_scraping_session t0 t1 now cfg eff).recorded
        = [(run_scraping_session t0 t1 now cfg eff).session]
    ∧ (run_scraping_session t0 t1 now cfg eff).session.end_time = some t1
    ∧ (run_scraping_session t0 t1 now cfg eff).session.duration_seconds = t1 - t0
    ∧ (run_scraping_session t0 t1 now cfg eff).session.status
        ∈ (["completed", "no_data", "health_check_failed", "failed"] : List String)
    ∧ (eff.metrics = .ok () → eff.healthOk = true → eff.scraped = [] →
        (run_scraping_session t0 t1 now cfg eff).session.status = "no_data"
        ∧ (run_scraping_session t0 t1 now cfg eff).retval = true)
    ∧ (∀ e, sessionFatalError cfg now eff e →
        (run_scraping_session t0 t1 now cfg eff).session.status = "failed"
        ∧ (run_scraping_session t0 t1 now cfg eff).session.errors = e
        ∧ (run_scraping_session t0 t1 now cfg eff).retval = false) := by
  obtain ⟨metrics, healthOk, scraped, save, csvNotify⟩ := eff
  cases metrics with
  | error e0 =>
    refine ⟨rfl, rfl, rfl, by simp [run_scraping_session], ?_, ?_⟩
    · intro h; cases h
    · intro e he
      rcases he with he | ⟨he, _⟩
      · cases he
        exact ⟨rfl, rfl, rfl⟩
      · cases he
  | ok u =>
    cases u
    cases healthOk with
    | false =>
      refine ⟨rfl, rfl, rfl, by simp [run_scraping_session], ?_, ?_⟩
      · intro _ h; cases h
      · intro e he
        rcases he with he | ⟨_, hh, _⟩
        · cases he
        · cases hh
    | true =>
      cases hscr : scraped.isEmpty with
      | true =>
        have hnil : scraped = [] := List.isEmpty_iff.mp hscr
        subst hnil
        refine ⟨rfl, rfl, rfl, by simp [run_scraping_session], ?_, ?_⟩
        · intro _ _ _
          exact ⟨rfl, rfl⟩
        · intro e he
          rcases he with he | ⟨_, _, hne, _⟩
          · cases he
          · simp at hne
      | false =>
        have hne : scraped ≠ [] := by
          intro h; subst h; simp at hscr
        cases hsave : saveAll save (score_opportunities cfg now scraped) with
        | error e0 =>
          refine ⟨rfl, rfl, rfl, ?_, ?_, ?_⟩
          · simp [run_scraping_session, hscr, hsave]
          · intro _ _ h
            exact absurd h hne
          · intro e he
            rcases he with he | ⟨_, _, _, hsv | ⟨n, hsv, _⟩⟩
            · cases he
            · rw [hsave] at hsv
              cases hsv
              refine ⟨?_, ?_, ?_⟩ <;> simp [run_scraping_session, hscr, hsave]
            · rw [hsave] at hsv
              cases hsv
        | ok n =>
          cases hcsv : csvNotify with
          | error e0 =>
            refine ⟨rfl, rfl, rfl, ?_, ?_, ?_⟩
            · simp [run_scraping_session, hscr, hsave, hcsv]
            · intro _ _ h
              exact absurd h hne
            · intro e he
              rcases he with he | ⟨_, _, _, hsv | ⟨n', hsv, hcn⟩⟩
              · cases he
              · rw [hsave] at hsv
                cases hsv
              · dsimp only at hcn
                injection hcn with h
                subst h
                refine ⟨?_, ?_, ?_⟩ <;> simp [run_scraping_session, hscr, hsave]
          | ok u2 =>
            cases u2
            refine ⟨rfl, rfl, rfl, ?_, ?_, ?_⟩
            · simp [run_scraping_session, hscr, hsave, hcsv]
            · intro _ _ h
              exact absurd h hne
            · intro e he
              rcases he with he | ⟨_, _, _, hsv | ⟨n', hsv, hcn⟩⟩
              · cases he
              · rw [hsave] at hsv
                cases hsv
              · dsimp only at hcn
                exact Except.noConfusion hcn

/-- Session inputs of a healthy run whose merged plugin results are
empty. -/
def effNoData : SessionEffects :=
  { metrics := .ok (), healthOk := true, scraped := [],
    save := fun _ => .ok true, csvNotify := .ok () }

/-- Session inputs of a run whose batch save raises. -/
def effDbDown : SessionEffects :=
  { metrics := .ok (), healthOk := true, scraped := [oppScenario],
    save := fun _ => .error "database unavailable", csvNotify := .ok () }

/-- Witness for C6: the empty-result run ends "no_data" with a success
return, and a run whose persistence layer raises ends "failed" with the
error text retained and a failure return. -/
theorem run_scraping_session_finalizes_once_witness :
    ((run_scraping_session 0 5 nowOct12 default_scoring effNoData).session.status = "no_data"
      ∧ (run_scraping_session 0 5 nowOct12 default_scoring effNoData).retval = true)
    ∧ ((run_scraping_session 0 5 nowOct12 default_scoring effDbDown).session.status = "failed"
      ∧ (run_scraping_session 0 5 nowOct12 default_scoring effDbDown).session.errors
          = "database unavailable"
      ∧ (run_scraping_session 0 5 nowOct12 default_scoring effDbDown).retval = false) :=
  ⟨(run_scraping_session_finalizes_once 0 5 nowOct12 default_scoring effNoData).2.2.2.2.1
      rfl rfl rfl,
   (run_scraping_session_finalizes_once 0 5 nowOct12 default_scoring effDbDown).2.2.2.2.2
      "database unavailable"
      (Or.inr ⟨rfl, rfl, rfl, Or.inl rfl⟩)⟩

end RFPScraper
